import Mathlib

/-
Shallow embedding of the CTK request handler (src/ctk/requests.py and
src/ctk/exceptions.py).

The only nontrivial control flow lives in `RequestHandler.handle_request`,
which loops over attempts, issuing one HTTP call per iteration through the
`requests` library, classifying the response status via
`RequestHandler._handle_response`, and retrying with a backoff delay when an
HTTPError / Timeout / ReadTimeout is caught, the attempt budget is not
exhausted, and the (last bound) response has a status in `retry_statuses`.

The network transport (`requests.get` / `requests.post`) is abstracted as an
oracle `transport : Nat → TransportResult` giving, for each 1-based attempt
number, either the response received or the transport failure raised.  The
`method` field selects between `requests.get` and `requests.post` in the
source; both branches bind the same local `response` variable and are
otherwise identical at this level of abstraction, so the loop body below does
not branch on it.  The `Literal['GET', 'POST']` annotation in the source is
modelled as a two-constructor enum, so the `raise ValueError` arm for other
method values is unreachable and omitted.

Observable timing effects (transport calls, backoff sleeps, the pacing sleep
in the `finally` block) are recorded as a trace of `Event`s, in the order the
source performs them.
-/

namespace CTK

/-- The HTTP method, per the `Literal['GET', 'POST']` annotation on
`RequestHandler.__init__`. -/
inductive Method where
  | GET
  | POST
  deriving DecidableEq

/-- A response as the handler consumes it: `status_code`, the decoded text
body (`response.content.decode('utf-8')`), and the parsed structured payload
(`response.json()`), the latter kept opaque. -/
structure Response where
  status_code : Nat
  content : String
  json : String
  deriving DecidableEq

/-- What one call to the transport produces: a response, or one of the two
transport failures the source's `except` clause catches
(`requests.exceptions.Timeout`, `requests.exceptions.ReadTimeout`). -/
inductive TransportResult where
  | ok (r : Response)
  | timeout
  | readTimeout
  deriving DecidableEq

/-- The fields of `RequestHandler`, with the default values of its
constructor.  Status sets are kept as lists of integers; only membership is
ever consulted. -/
structure RequestHandler where
  base_url : String := ""
  headers : Option (List (String × String)) := none
  method : Method := Method.GET
  request_interval : Nat := 5
  retry_max_attempts : Nat := 3
  valid_statuses : List Nat := [200, 201]
  invalid_statuses : List Nat := [400, 401, 403, 404, 429, 500, 503]
  retry_statuses : List Nat := [429]
  deriving DecidableEq

/-- The two exceptions `RequestHandler._handle_response` can raise:
`HTTPError(response.content.decode('utf-8'))` for a status in
`invalid_statuses`, and `UnspecifiedHTTPStatusError` (from
src/ctk/exceptions.py) carrying the offending status code otherwise. -/
inductive HandleError where
  | httpError (body : String)
  | unspecified (status_code : Nat)
  deriving DecidableEq

/-- `RequestHandler._handle_response` (the leading underscore of the source
name is dropped): returns `True` for a status in `valid_statuses`, raises
`HTTPError` with the decoded body for a status in `invalid_statuses`, and
raises `UnspecifiedHTTPStatusError` for any other status. -/
def handle_response (h : RequestHandler) (r : Response) : Except HandleError Bool :=
  if r.status_code ∈ h.valid_statuses then
    Except.ok true
  else if r.status_code ∈ h.invalid_statuses then
    Except.error (HandleError.httpError r.content)
  else
    Except.error (HandleError.unspecified r.status_code)

/-- How one invocation of `handle_request` terminates: returning
`response.json()`, propagating one of the caught-and-reraised exceptions,
propagating `UnspecifiedHTTPStatusError`, aborting with the
`UnboundLocalError` produced by reading the never-assigned local `response`,
or falling off the `while` loop and returning Python's implicit `None`. -/
inductive Outcome where
  | success (json : String)
  | httpError (body : String)
  | timeoutErr
  | readTimeoutErr
  | unspecifiedStatus (status_code : Nat)
  | unboundLocal
  | noneReturn
  deriving DecidableEq

/-- Observable timing events of one invocation, in source order: a transport
call on a given attempt, the backoff sleep `time.sleep(self._backoff_delay
(attempt_number))`, and the pacing sleep `time.sleep(self.request_interval)`
performed by the `finally` block of every loop iteration. -/
inductive Event where
  | call (attempt_number : Nat)
  | backoffSleep (attempt_number : Nat)
  | pacingSleep
  deriving DecidableEq

/-- The `while attempt_number <= self.retry_max_attempts` loop of
`RequestHandler.handle_request`.  `prev` is the current binding of the local
variable `response` (`none` when it has never been assigned).  `fuel`
encodes the loop guard: the caller maintains
`attempt_number + fuel = retry_max_attempts + 1`, so `fuel = 0` exactly when
`attempt_number > retry_max_attempts` and the loop exits returning `None`.

Each iteration: issue the transport call; on a response, bind `response` and
run `handle_response` — `True` returns `response.json()`; `HTTPError` is
caught and either reraised (when `attempt_number == retry_max_attempts` or
the bound response's status is not in `retry_statuses`) or retried after the
backoff sleep; `UnspecifiedHTTPStatusError` is reraised.  On a Timeout or
ReadTimeout the same `except` clause runs with `response` unchanged — if the
short-circuiting `attempt_number == retry_max_attempts` test fails and
`response` was never assigned, evaluating `response.status_code` raises
`UnboundLocalError`.  The `finally` pacing sleep is recorded on every exit
path of the iteration, before the result or exception is delivered. -/
def handle_request_loop (h : RequestHandler) (transport : Nat → TransportResult)
    (prev : Option Response) (attempt_number : Nat) (fuel : Nat) :
    Outcome × List Event :=
  match fuel with
  | 0 => (Outcome.noneReturn, [])
  | fuel' + 1 =>
    match transport attempt_number with
    | TransportResult.ok r =>
      match handle_response h r with
      | Except.ok _ =>
        (Outcome.success r.json, [Event.call attempt_number, Event.pacingSleep])
      | Except.error (HandleError.httpError body) =>
        if attempt_number = h.retry_max_attempts then
          (Outcome.httpError body, [Event.call attempt_number, Event.pacingSleep])
        else if r.status_code ∈ h.retry_statuses then
          let rest := handle_request_loop h transport (some r) (attempt_number + 1) fuel'
          (rest.1, Event.call attempt_number :: Event.backoffSleep attempt_number ::
            Event.pacingSleep :: rest.2)
        else
          (Outcome.httpError body, [Event.call attempt_number, Event.pacingSleep])
      | Except.error (HandleError.unspecified s) =>
        (Outcome.unspecifiedStatus s, [Event.call attempt_number, Event.pacingSleep])
    | TransportResult.timeout =>
      if attempt_number = h.retry_max_attempts then
        (Outcome.timeoutErr, [Event.call attempt_number, Event.pacingSleep])
      else
        match prev with
        | none => (Outcome.unboundLocal, [Event.call attempt_number, Event.pacingSleep])
        | some r =>
          if r.status_code ∈ h.retry_statuses then
            let rest := handle_request_loop h transport (some r) (attempt_number + 1) fuel'
            (rest.1, Event.call attempt_number :: Event.backoffSleep attempt_number ::
              Event.pacingSleep :: rest.2)
          else
            (Outcome.timeoutErr, [Event.call attempt_number, Event.pacingSleep])
    | TransportResult.readTimeout =>
      if attempt_number = h.retry_max_attempts then
        (Outcome.readTimeoutErr, [Event.call attempt_number, Event.pacingSleep])
      else
        match prev with
        | none => (Outcome.unboundLocal, [Event.call attempt_number, Event.pacingSleep])
        | some r =>
          if r.status_code ∈ h.retry_statuses then
            let rest := handle_request_loop h transport (some r) (attempt_number + 1) fuel'
            (rest.1, Event.call attempt_number :: Event.backoffSleep attempt_number ::
              Event.pacingSleep :: rest.2)
          else
            (Outcome.readTimeoutErr, [Event.call attempt_number, Event.pacingSleep])

/-- `RequestHandler.handle_request`: `attempt_number` starts at 1, the local
`response` starts unassigned, and the loop admits at most
`retry_max_attempts` iterations. -/
def handle_request (h : RequestHandler) (transport : Nat → TransportResult) :
    Outcome × List Event :=
  handle_request_loop h transport none 1 h.retry_max_attempts

/-- `RequestHandler._backoff_delay` (leading underscore dropped):
`min(2 ** attempt_number, 10) * (1 + jitter)`, with the jitter drawn from
`random.uniform(0, 1)` made an explicit rational parameter. -/
def backoff_delay (attempt_number : Nat) (jitter : ℚ) : ℚ :=
  ((min (2 ^ attempt_number) 10 : Nat) : ℚ) * (1 + jitter)

/-- Number of transport calls (attempts made) in an event trace. -/
def countCalls : List Event → Nat
  | [] => 0
  | Event.call _ :: es => countCalls es + 1
  | _ :: es => countCalls es

/-- Number of backoff sleeps in an event trace. -/
def countBackoff : List Event → Nat
  | [] => 0
  | Event.backoffSleep _ :: es => countBackoff es + 1
  | _ :: es => countBackoff es

/-- Number of pacing sleeps in an event trace. -/
def countPacing : List Event → Nat
  | [] => 0
  | Event.pacingSleep :: es => countPacing es + 1
  | _ :: es => countPacing es

/-- A `RequestHandler` built with all constructor defaults. -/
def defaultHandler : RequestHandler := {}

/-- A response with the default retry status 429. -/
def resp429 : Response :=
  { status_code := 429, content := "too many requests", json := "rate payload" }

/-- A response with the default valid status 200. -/
def resp200 : Response :=
  { status_code := 200, content := "ok body", json := "ok payload" }

/-- A handler whose single retry status 599 is not listed among the invalid
statuses. -/
def retryOnlyHandler : RequestHandler :=
  { base_url := "", headers := none, method := Method.GET, request_interval := 5,
    retry_max_attempts := 3, valid_statuses := [200],
    invalid_statuses := [400], retry_statuses := [599] }

/-- A response with status 599. -/
def resp599 : Response :=
  { status_code := 599, content := "server melted", json := "err payload" }

/-- A transport that times out on every attempt. -/
def timeoutTransport : Nat → TransportResult := fun _ => TransportResult.timeout

/-- A response with the default invalid (but not retry) status 400. -/
def resp400 : Response :=
  { status_code := 400, content := "bad request", json := "bad payload" }

/-- A response with status 418, absent from every default status set. -/
def resp418 : Response :=
  { status_code := 418, content := "teapot", json := "teapot payload" }

/-- A transport returning the retry status 429 on attempt 1 and the valid
status 200 afterwards. -/
def retryThenOkTransport : Nat → TransportResult :=
  fun n => if n = 1 then TransportResult.ok resp429 else TransportResult.ok resp200

/-- One loop iteration that retries: the transport returns a response whose
status raises `HTTPError` (not valid, invalid) and is a retry status, and the
attempt budget is not exhausted, so the iteration records the call, the
backoff sleep and the pacing sleep and re-enters the loop with the attempt
number incremented and `response` bound. -/
theorem loop_retry_step (h : RequestHandler) (t : Nat → TransportResult) (r : Response)
    (prev : Option Response) (n fuel fuel' : Nat)
    (hfuel : fuel = fuel' + 1)
    (hne : n ≠ h.retry_max_attempts)
    (ht : t n = TransportResult.ok r)
    (hval : r.status_code ∉ h.valid_statuses)
    (hinv : r.status_code ∈ h.invalid_statuses)
    (hret : r.status_code ∈ h.retry_statuses) :
    handle_request_loop h t prev n fuel =
      ((handle_request_loop h t (some r) (n + 1) fuel').1,
        Event.call n :: Event.backoffSleep n :: Event.pacingSleep ::
          (handle_request_loop h t (some r) (n + 1) fuel').2) := by
  subst hfuel
  simp only [handle_request_loop, ht]
  simp [handle_response, hval, hinv, hne, hret]

/-- One loop iteration that reraises the `HTTPError`: the response status is
invalid, and either the attempt budget is exhausted or the status is not a
retry status. -/
theorem loop_http_stop_step (h : RequestHandler) (t : Nat → TransportResult) (r : Response)
    (prev : Option Response) (n fuel fuel' : Nat)
    (hfuel : fuel = fuel' + 1)
    (ht : t n = TransportResult.ok r)
    (hval : r.status_code ∉ h.valid_statuses)
    (hinv : r.status_code ∈ h.invalid_statuses)
    (hstop : n = h.retry_max_attempts ∨ r.status_code ∉ h.retry_statuses) :
    handle_request_loop h t prev n fuel =
      (Outcome.httpError r.content, [Event.call n, Event.pacingSleep]) := by
  subst hfuel
  simp only [handle_request_loop, ht]
  rcases hstop with hstop | hstop
  · simp [handle_response, hval, hinv, hstop]
  · by_cases hmaxeq : n = h.retry_max_attempts
    · simp [handle_response, hval, hinv, hmaxeq]
    · simp [handle_response, hval, hinv, hmaxeq, hstop]

/-- One loop iteration that returns: the response status is valid, so the
iteration records the call and the pacing sleep and returns the parsed
body. -/
theorem loop_success_step (h : RequestHandler) (t : Nat → TransportResult) (r : Response)
    (prev : Option Response) (n fuel fuel' : Nat)
    (hfuel : fuel = fuel' + 1)
    (ht : t n = TransportResult.ok r)
    (hval : r.status_code ∈ h.valid_statuses) :
    handle_request_loop h t prev n fuel =
      (Outcome.success r.json, [Event.call n, Event.pacingSleep]) := by
  subst hfuel
  simp only [handle_request_loop, ht]
  simp [handle_response, hval]

/-- One loop iteration that raises `UnspecifiedHTTPStatusError`: the response
status is in neither `valid_statuses` nor `invalid_statuses`, and the error
is reraised with no retry check at all. -/
theorem loop_unspecified_step (h : RequestHandler) (t : Nat → TransportResult) (r : Response)
    (prev : Option Response) (n fuel fuel' : Nat)
    (hfuel : fuel = fuel' + 1)
    (ht : t n = TransportResult.ok r)
    (hval : r.status_code ∉ h.valid_statuses)
    (hinv : r.status_code ∉ h.invalid_statuses) :
    handle_request_loop h t prev n fuel =
      (Outcome.unspecifiedStatus r.status_code, [Event.call n, Event.pacingSleep]) := by
  subst hfuel
  simp only [handle_request_loop, ht]
  simp [handle_response, hval, hinv]

/-- One loop iteration in which the transport fails while `response` was
never assigned and the budget check fails: evaluating
`response.status_code` raises `UnboundLocalError`. -/
theorem loop_transport_failure_unbound_step (h : RequestHandler)
    (t : Nat → TransportResult) (n fuel fuel' : Nat)
    (hfuel : fuel = fuel' + 1)
    (ht : t n = TransportResult.timeout ∨ t n = TransportResult.readTimeout)
    (hne : n ≠ h.retry_max_attempts) :
    handle_request_loop h t none n fuel =
      (Outcome.unboundLocal, [Event.call n, Event.pacingSleep]) := by
  subst hfuel
  rcases ht with ht | ht <;> simp only [handle_request_loop, ht] <;> simp [hne]

/-- Whenever the loop guard admits an iteration, that iteration begins with a
transport call on the current attempt number. -/
theorem handle_request_loop_events_head (h : RequestHandler) (t : Nat → TransportResult)
    (prev : Option Response) (n fuel : Nat) (hfuel : 0 < fuel) :
    (handle_request_loop h t prev n fuel).2.head? = some (Event.call n) := by
  obtain ⟨fuel', rfl⟩ : ∃ k, fuel = k + 1 := ⟨fuel - 1, by omega⟩
  cases htn : t n
  case ok r =>
    cases hhr : handle_response h r
    case ok b => simp [handle_request_loop, htn, hhr]
    case error e =>
      cases e
      case httpError body =>
        by_cases h1 : n = h.retry_max_attempts
        · subst h1
          simp [handle_request_loop, htn, hhr]
        · by_cases h2 : r.status_code ∈ h.retry_statuses
          · simp [handle_request_loop, htn, hhr, h1, h2]
          · simp [handle_request_loop, htn, hhr, h1, h2]
      case unspecified s => simp [handle_request_loop, htn, hhr]
  case timeout =>
    by_cases h1 : n = h.retry_max_attempts
    · subst h1
      simp [handle_request_loop, htn]
    · rcases prev with _ | r
      · simp [handle_request_loop, htn, h1]
      · by_cases h2 : r.status_code ∈ h.retry_statuses
        · simp [handle_request_loop, htn, h1, h2]
        · simp [handle_request_loop, htn, h1, h2]
  case readTimeout =>
    by_cases h1 : n = h.retry_max_attempts
    · subst h1
      simp [handle_request_loop, htn]
    · rcases prev with _ | r
      · simp [handle_request_loop, htn, h1]
      · by_cases h2 : r.status_code ∈ h.retry_statuses
        · simp [handle_request_loop, htn, h1, h2]
        · simp [handle_request_loop, htn, h1, h2]

/-- In every trace the loop can produce, the pacing sleep performed by the
`finally` block occurs exactly as many times as transport calls are made. -/
theorem countPacing_loop_eq_countCalls (h : RequestHandler) (t : Nat → TransportResult) :
    ∀ (fuel : Nat) (prev : Option Response) (n : Nat),
      countPacing (handle_request_loop h t prev n fuel).2 =
        countCalls (handle_request_loop h t prev n fuel).2 := by
  intro fuel
  induction fuel with
  | zero =>
    intro prev n
    simp [handle_request_loop, countPacing, countCalls]
  | succ fuel ih =>
    intro prev n
    cases htn : t n
    case ok r =>
      cases hhr : handle_response h r
      case ok b => simp [handle_request_loop, htn, hhr, countPacing, countCalls]
      case error e =>
        cases e
        case httpError body =>
          by_cases h1 : n = h.retry_max_attempts
          · subst h1
            simp [handle_request_loop, htn, hhr, countPacing, countCalls]
          · by_cases h2 : r.status_code ∈ h.retry_statuses
            · simp [handle_request_loop, htn, hhr, h1, h2, countPacing, countCalls, ih]
            · simp [handle_request_loop, htn, hhr, h1, h2, countPacing, countCalls]
        case unspecified s => simp [handle_request_loop, htn, hhr, countPacing, countCalls]
    case timeout =>
      by_cases h1 : n = h.retry_max_attempts
      · subst h1
        simp [handle_request_loop, htn, countPacing, countCalls]
      · rcases prev with _ | r
        · simp [handle_request_loop, htn, h1, countPacing, countCalls]
        · by_cases h2 : r.status_code ∈ h.retry_statuses
          · simp [handle_request_loop, htn, h1, h2, countPacing, countCalls, ih]
          · simp [handle_request_loop, htn, h1, h2, countPacing, countCalls]
    case readTimeout =>
      by_cases h1 : n = h.retry_max_attempts
      · subst h1
        simp [handle_request_loop, htn, countPacing, countCalls]
      · rcases prev with _ | r
        · simp [handle_request_loop, htn, h1, countPacing, countCalls]
        · by_cases h2 : r.status_code ∈ h.retry_statuses
          · simp [handle_request_loop, htn, h1, h2, countPacing, countCalls, ih]
          · simp [handle_request_loop, htn, h1, h2, countPacing, countCalls]

/-- C1, counterexample to the claim as stated: with a handler whose retry
status 599 is not also an invalid status, a response with status 599 —
retryable and not accepted — on attempt 1 of 3 is NOT retried: the run makes
exactly one transport call, sleeps no backoff delay, and raises the
unspecified-status error, because only statuses in `invalid_statuses` raise
the `HTTPError` that reaches the retry check. -/
theorem retry_only_status_not_retried_cex :
    resp599.status_code = 599 ∧
    599 ∈ retryOnlyHandler.retry_statuses ∧
    599 ∉ retryOnlyHandler.valid_statuses ∧
    1 < retryOnlyHandler.retry_max_attempts ∧
    handle_request retryOnlyHandler (fun _ => TransportResult.ok resp599) =
      (Outcome.unspecifiedStatus 599, [Event.call 1, Event.pacingSleep]) ∧
    countBackoff
      (handle_request retryOnlyHandler (fun _ => TransportResult.ok resp599)).2 = 0 ∧
    countCalls
      (handle_request retryOnlyHandler (fun _ => TransportResult.ok resp599)).2 = 1 := by
  decide

/-- C1, amended: a response whose status is in `retry_statuses` AND in
`invalid_statuses` (as every default retry status is), and not in
`valid_statuses`, received on an attempt with attempt number strictly below
`retry_max_attempts`, makes the handler retry: the iteration records the
transport call, the backoff sleep for the current attempt number and the
pacing sleep, increments the attempt number, rebinds `response`, and the
next iteration issues another transport call. -/
theorem retryable_invalid_status_is_retried (h : RequestHandler)
    (t : Nat → TransportResult) (r : Response) (prev : Option Response) (n fuel : Nat)
    (hfuel : n + fuel = h.retry_max_attempts + 1)
    (hn : n < h.retry_max_attempts)
    (ht : t n = TransportResult.ok r)
    (hval : r.status_code ∉ h.valid_statuses)
    (hinv : r.status_code ∈ h.invalid_statuses)
    (hret : r.status_code ∈ h.retry_statuses) :
    handle_request_loop h t prev n fuel =
      ((handle_request_loop h t (some r) (n + 1) (fuel - 1)).1,
        Event.call n :: Event.backoffSleep n :: Event.pacingSleep ::
          (handle_request_loop h t (some r) (n + 1) (fuel - 1)).2) ∧
    (handle_request_loop h t (some r) (n + 1) (fuel - 1)).2.head? =
      some (Event.call (n + 1)) := by
  have hne : n ≠ h.retry_max_attempts := by omega
  constructor
  · exact loop_retry_step h t r prev n fuel (fuel - 1) (by omega) hne ht hval hinv hret
  · exact handle_request_loop_events_head h t (some r) (n + 1) (fuel - 1) (by omega)

/-- Witness for C1 at a concrete input: default handler, transport always
returning status 429, first attempt. -/
theorem retryable_invalid_status_is_retried_witness :
    (handle_request_loop defaultHandler (fun _ => TransportResult.ok resp429) none 1 3 =
      ((handle_request_loop defaultHandler (fun _ => TransportResult.ok resp429)
          (some resp429) 2 2).1,
        Event.call 1 :: Event.backoffSleep 1 :: Event.pacingSleep ::
          (handle_request_loop defaultHandler (fun _ => TransportResult.ok resp429)
            (some resp429) 2 2).2) ∧
    (handle_request_loop defaultHandler (fun _ => TransportResult.ok resp429)
        (some resp429) 2 2).2.head? = some (Event.call 2)) :=
  retryable_invalid_status_is_retried defaultHandler
    (fun _ => TransportResult.ok resp429) resp429 none 1 3
    (by decide) (by decide) rfl (by decide) (by decide) (by decide)

/-- C2, evaluation at the failing input (code bug): with the default
configuration (`retry_max_attempts = 3`) and a transport that times out on
the very first attempt, the code does not retry although budget remains —
the retry check evaluates `response.status_code` while the local `response`
was never assigned, so the run aborts with `UnboundLocalError` after exactly
one attempt. -/
theorem first_attempt_timeout_unboundlocal_eval :
    1 < defaultHandler.retry_max_attempts ∧
    handle_request defaultHandler timeoutTransport =
      (Outcome.unboundLocal, [Event.call 1, Event.pacingSleep]) := by
  decide

/-- C3, counterexample to the claim as stated: status 429 is in the default
`invalid_statuses` (rejected) and not in `valid_statuses`, yet a transport
that always returns 429 is retried — the run performs 3 attempts and 2
backoff sleeps, not exactly one attempt with no backoff, because membership
in `retry_statuses` overrides the rejected classification while budget
remains. -/
theorem rejected_and_retryable_is_retried_cex :
    resp429.status_code = 429 ∧
    429 ∈ defaultHandler.invalid_statuses ∧
    429 ∉ defaultHandler.valid_statuses ∧
    429 ∈ defaultHandler.retry_statuses ∧
    countCalls
      (handle_request defaultHandler (fun _ => TransportResult.ok resp429)).2 = 3 ∧
    countBackoff
      (handle_request defaultHandler (fun _ => TransportResult.ok resp429)).2 = 2 := by
  decide

/-- C3, amended: a response whose status is in `invalid_statuses`, not in
`valid_statuses` and ALSO NOT in `retry_statuses`, received on the first
attempt, terminates the run after exactly one attempt with the HTTP error
carrying the response body, with no retry and no backoff sleep (the pacing
sleep still occurs). -/
theorem rejected_not_retryable_single_attempt (h : RequestHandler)
    (t : Nat → TransportResult) (r : Response)
    (hmax : 1 ≤ h.retry_max_attempts)
    (ht : t 1 = TransportResult.ok r)
    (hval : r.status_code ∉ h.valid_statuses)
    (hinv : r.status_code ∈ h.invalid_statuses)
    (hret : r.status_code ∉ h.retry_statuses) :
    handle_request h t = (Outcome.httpError r.content, [Event.call 1, Event.pacingSleep]) := by
  rw [handle_request,
    loop_http_stop_step h t r none 1 h.retry_max_attempts (h.retry_max_attempts - 1)
      (by omega) ht hval hinv (Or.inr hret)]

/-- Witness for C3 at a concrete input: default handler, transport returning
status 400 on attempt 1. -/
theorem rejected_not_retryable_single_attempt_witness :
    handle_request defaultHandler (fun _ => TransportResult.ok resp400) =
      (Outcome.httpError "bad request", [Event.call 1, Event.pacingSleep]) :=
  rejected_not_retryable_single_attempt defaultHandler
    (fun _ => TransportResult.ok resp400) resp400 (by decide) rfl
    (by decide) (by decide) (by decide)

/-- C4: with `retry_max_attempts = 3` and a transport that on every attempt
returns a response whose status drives the retry machinery (a configured
retry status, which per the constructor documentation is also an invalid
status, and not a valid one), the run performs exactly 3 transport calls,
sleeps a backoff delay after the first two, never issues a fourth call, and
raises the HTTP error carrying the third response's body. -/
theorem always_retryable_exhausts_three_attempts (h : RequestHandler)
    (t : Nat → TransportResult) (resp : Nat → Response)
    (hmax : h.retry_max_attempts = 3)
    (ht : ∀ n, t n = TransportResult.ok (resp n))
    (hval : ∀ n, (resp n).status_code ∉ h.valid_statuses)
    (hinv : ∀ n, (resp n).status_code ∈ h.invalid_statuses)
    (hret : ∀ n, (resp n).status_code ∈ h.retry_statuses) :
    handle_request h t =
      (Outcome.httpError (resp 3).content,
        [Event.call 1, Event.backoffSleep 1, Event.pacingSleep,
         Event.call 2, Event.backoffSleep 2, Event.pacingSleep,
         Event.call 3, Event.pacingSleep]) := by
  have h1 : (1 : Nat) ≠ h.retry_max_attempts := by omega
  have h2 : (2 : Nat) ≠ h.retry_max_attempts := by omega
  have h3 : (3 : Nat) = h.retry_max_attempts := hmax.symm
  rw [handle_request, hmax,
    loop_retry_step h t (resp 1) none 1 3 2 (by norm_num) h1 (ht 1) (hval 1) (hinv 1) (hret 1)]
  norm_num
  rw [loop_retry_step h t (resp 2) (some (resp 1)) 2 2 1 (by norm_num) h2 (ht 2)
    (hval 2) (hinv 2) (hret 2)]
  norm_num
  rw [loop_http_stop_step h t (resp 3) (some (resp 2)) 3 1 0 (by norm_num) (ht 3)
    (hval 3) (hinv 3) (Or.inl h3)]
  exact ⟨rfl, rfl⟩

/-- Witness for C4 at a concrete input: default handler, transport always
returning status 429. -/
theorem always_retryable_exhausts_three_attempts_witness :
    handle_request defaultHandler (fun _ => TransportResult.ok resp429) =
      (Outcome.httpError "too many requests",
        [Event.call 1, Event.backoffSleep 1, Event.pacingSleep,
         Event.call 2, Event.backoffSleep 2, Event.pacingSleep,
         Event.call 3, Event.pacingSleep]) :=
  always_retryable_exhausts_three_attempts defaultHandler
    (fun _ => TransportResult.ok resp429) (fun _ => resp429) (by decide)
    (fun _ => rfl)
    (fun _ => (by decide : resp429.status_code ∉ defaultHandler.valid_statuses))
    (fun _ => (by decide : resp429.status_code ∈ defaultHandler.invalid_statuses))
    (fun _ => (by decide : resp429.status_code ∈ defaultHandler.retry_statuses))

/-- C5: on every execution, for every handler and every transport behavior,
the pacing sleep performed by the `finally` block fires exactly once per
attempt made: the total number of pacing-sleep events in the trace equals
the total number of transport calls, whatever the outcome. -/
theorem pacing_fires_once_per_attempt (h : RequestHandler) (t : Nat → TransportResult) :
    countPacing (handle_request h t).2 = countCalls (handle_request h t).2 :=
  countPacing_loop_eq_countCalls h t h.retry_max_attempts none 1

/-- C6: for every attempt number n and every jitter value in [0, 1), the
backoff delay equals min(2^n, 10) * (1 + jitter); hence it is at least
min(2^n, 10) and strictly below 2 * min(2^n, 10); the base for n = 0 is 1
and the base for n = 10 is capped at 10 rather than 1024. -/
theorem backoff_delay_bounds (n : Nat) (j : ℚ) (h0 : 0 ≤ j) (h1 : j < 1) :
    backoff_delay n j = ((min (2 ^ n) 10 : Nat) : ℚ) * (1 + j) ∧
    ((min (2 ^ n) 10 : Nat) : ℚ) ≤ backoff_delay n j ∧
    backoff_delay n j < 2 * ((min (2 ^ n) 10 : Nat) : ℚ) ∧
    min (2 ^ (0 : Nat)) 10 = 1 ∧
    min (2 ^ (10 : Nat)) 10 = 10 := by
  have hb : (1 : ℚ) ≤ ((min (2 ^ n) 10 : Nat) : ℚ) := by
    have h2 : 1 ≤ min (2 ^ n) 10 := le_min Nat.one_le_two_pow (by norm_num)
    exact_mod_cast h2
  refine ⟨rfl, ?_, ?_, by decide, by decide⟩
  · unfold backoff_delay
    nlinarith [mul_nonneg (le_trans zero_le_one hb) h0]
  · unfold backoff_delay
    nlinarith [mul_pos (lt_of_lt_of_le zero_lt_one hb)
      (by linarith : (0 : ℚ) < 1 - j)]

/-- Witness for C6 at a concrete input: attempt number 3, jitter 1/2. -/
theorem backoff_delay_bounds_witness :
    backoff_delay 3 (1 / 2) = ((min (2 ^ 3) 10 : Nat) : ℚ) * (1 + 1 / 2) ∧
    ((min (2 ^ 3) 10 : Nat) : ℚ) ≤ backoff_delay 3 (1 / 2) ∧
    backoff_delay 3 (1 / 2) < 2 * ((min (2 ^ 3) 10 : Nat) : ℚ) ∧
    min (2 ^ (0 : Nat)) 10 = 1 ∧
    min (2 ^ (10 : Nat)) 10 = 10 :=
  backoff_delay_bounds 3 (1 / 2) (by norm_num) (by norm_num)

/-- C7: a response whose status is in none of `valid_statuses`,
`invalid_statuses` or `retry_statuses`, received on the first attempt, makes
the run raise the distinct unspecified-status error carrying the offending
status code, after exactly one attempt and zero retries. -/
theorem unclassified_status_single_attempt (h : RequestHandler)
    (t : Nat → TransportResult) (r : Response)
    (hmax : 1 ≤ h.retry_max_attempts)
    (ht : t 1 = TransportResult.ok r)
    (hval : r.status_code ∉ h.valid_statuses)
    (hinv : r.status_code ∉ h.invalid_statuses)
    (hret : r.status_code ∉ h.retry_statuses) :
    handle_request h t =
      (Outcome.unspecifiedStatus r.status_code, [Event.call 1, Event.pacingSleep]) := by
  rw [handle_request,
    loop_unspecified_step h t r none 1 h.retry_max_attempts (h.retry_max_attempts - 1)
      (by omega) ht hval hinv]

/-- Witness for C7 at a concrete input: default handler, transport returning
status 418 on attempt 1. -/
theorem unclassified_status_single_attempt_witness :
    handle_request defaultHandler (fun _ => TransportResult.ok resp418) =
      (Outcome.unspecifiedStatus 418, [Event.call 1, Event.pacingSleep]) :=
  unclassified_status_single_attempt defaultHandler
    (fun _ => TransportResult.ok resp418) resp418 (by decide) rfl
    (by decide) (by decide) (by decide)

/-- C8: with `retry_max_attempts = 3`, a transport returning a retry-driving
status (configured retry status, also invalid, not valid) on attempt 1 and a
valid status on attempt 2, the run performs exactly 2 transport calls and
returns the parsed structured body of the second response. -/
theorem retry_then_accepted_two_attempts (h : RequestHandler)
    (t : Nat → TransportResult) (r1 r2 : Response)
    (hmax : h.retry_max_attempts = 3)
    (ht1 : t 1 = TransportResult.ok r1)
    (ht2 : t 2 = TransportResult.ok r2)
    (h1val : r1.status_code ∉ h.valid_statuses)
    (h1inv : r1.status_code ∈ h.invalid_statuses)
    (h1ret : r1.status_code ∈ h.retry_statuses)
    (h2val : r2.status_code ∈ h.valid_statuses) :
    handle_request h t =
      (Outcome.success r2.json,
        [Event.call 1, Event.backoffSleep 1, Event.pacingSleep,
         Event.call 2, Event.pacingSleep]) := by
  have h1 : (1 : Nat) ≠ h.retry_max_attempts := by omega
  rw [handle_request, hmax,
    loop_retry_step h t r1 none 1 3 2 (by norm_num) h1 ht1 h1val h1inv h1ret]
  norm_num
  rw [loop_success_step h t r2 (some r1) 2 2 1 (by norm_num) ht2 h2val]
  exact ⟨rfl, rfl⟩

/-- Witness for C8 at a concrete input: default handler, transport returning
429 on attempt 1 and 200 afterwards. -/
theorem retry_then_accepted_two_attempts_witness :
    handle_request defaultHandler retryThenOkTransport =
      (Outcome.success "ok payload",
        [Event.call 1, Event.backoffSleep 1, Event.pacingSleep,
         Event.call 2, Event.pacingSleep]) :=
  retry_then_accepted_two_attempts defaultHandler retryThenOkTransport resp429 resp200
    (by decide) rfl rfl (by decide) (by decide) (by decide) (by decide)

/-- C9: when the transport raises a timeout or read-timeout on the very
first attempt (so the local `response` was never assigned) and
`retry_max_attempts` exceeds 1, the retry check reads `response` before any
assignment: the run aborts with `UnboundLocalError` after exactly one
attempt, with no retry and no backoff sleep. -/
theorem first_attempt_transport_failure_unbound (h : RequestHandler)
    (t : Nat → TransportResult)
    (hmax : 1 < h.retry_max_attempts)
    (ht : t 1 = TransportResult.timeout ∨ t 1 = TransportResult.readTimeout) :
    handle_request h t = (Outcome.unboundLocal, [Event.call 1, Event.pacingSleep]) := by
  rw [handle_request,
    loop_transport_failure_unbound_step h t 1 h.retry_max_attempts
      (h.retry_max_attempts - 1) (by omega) ht (by omega)]

/-- Witness for C9 at a concrete input: default handler, transport timing out
on attempt 1. -/
theorem first_attempt_transport_failure_unbound_witness :
    handle_request defaultHandler timeoutTransport =
      (Outcome.unboundLocal, [Event.call 1, Event.pacingSleep]) :=
  first_attempt_transport_failure_unbound defaultHandler timeoutTransport
    (by decide) (Or.inl rfl)

/-- C10: when `retry_max_attempts` is 0, the `while` loop is entered zero
times: the run issues no transport call, performs no sleep, raises no error,
and falls off the loop returning Python's implicit `None` instead of a
dictionary. -/
theorem zero_max_attempts_returns_none (h : RequestHandler)
    (t : Nat → TransportResult)
    (hmax : h.retry_max_attempts = 0) :
    handle_request h t = (Outcome.noneReturn, []) := by
  rw [handle_request, hmax]
  rfl

/-- Witness for C10 at a concrete input: default handler with its attempt
budget set to 0. -/
theorem zero_max_attempts_returns_none_witness :
    handle_request { defaultHandler with retry_max_attempts := 0 } timeoutTransport =
      (Outcome.noneReturn, []) :=
  zero_max_attempts_returns_none { defaultHandler with retry_max_attempts := 0 }
    timeoutTransport rfl

end CTK
